import Mathlib

/-!
Shallow embedding of the bevy build-benchmark program (`src/main.rs`) and
proofs of the specification claims about it.

The embedding keeps the source's structure and names: the configuration
enums and `Scenario`, the derived-value functions (`slug`, `ready_marker`,
`payload_value`, `next_payload_value`), the generated-artifact builders
(`build_payload_main`, `build_cargo_config`, `build_cargo_toml`,
`default_toolchain`), the scenario matrix (`enumerate_scenarios`), and the
control loop of the hot-patch session monitor (`run_dx_hotpatch`), modelled
as a step function over the stream of `recv_timeout` outcomes.

Machine integers (`u64`) are modelled as `Nat` with explicit `% 2 ^ 64`
where the source wraps.
-/

namespace Bench

/-- Configuration dimension: linker choice (`enum Linker`). -/
inductive Linker
  | RustLld
deriving DecidableEq

/-- Configuration dimension: compilation-cache strategy (`enum Cache`). -/
inductive Cache
  | DisableIncremental
  | Sscache
deriving DecidableEq

/-- Configuration dimension: codegen / dynamic-linking strategy (`enum Dynamic`). -/
inductive Dynamic
  | DynamicLinking
  | ShareGenerics
deriving DecidableEq

/-- Configuration dimension: hot-patching mode (`enum Hotpatching`). -/
inductive Hotpatching
  | Dx
deriving DecidableEq

/-- One point of the configuration matrix (`struct Scenario`). -/
structure Scenario where
  linker : Option Linker
  cache : Option Cache
  dynamic : Option Dynamic
  hotpatching : Option Hotpatching
deriving DecidableEq

/-- The four generated artifact contents (`struct Code`). -/
structure Code where
  cargo_config_toml : String
  src_main_rs : String
  cargo_toml : String
  rust_toolchain_toml : String
deriving DecidableEq

/-- `Scenario::slug`: render the four fields to fixed tokens and join with "-". -/
def Scenario.slug (s : Scenario) : String :=
  let parts : List String :=
    [ (match s.linker with
       | some Linker.RustLld => "rust-lld"
       | none => "default-linker"),
      (match s.cache with
       | some Cache.DisableIncremental => "no-incremental"
       | some Cache.Sscache => "sscache"
       | none => "incremental"),
      (match s.dynamic with
       | some Dynamic.DynamicLinking => "dynamic-linking"
       | some Dynamic.ShareGenerics => "share-generics"
       | none => "default-dynamic"),
      (match s.hotpatching with
       | some Hotpatching.Dx => "dx-hotpatch"
       | none => "no-hotpatch") ]
  String.intercalate "-" parts

/-- Numeric encoding of the four fields, in declaration order, used by the
seed stand-in below. -/
def Scenario.fieldCodes (s : Scenario) : List Nat :=
  [ (match s.linker with | none => 0 | some Linker.RustLld => 1),
    (match s.cache with
     | none => 0 | some Cache.DisableIncremental => 1 | some Cache.Sscache => 2),
    (match s.dynamic with
     | none => 0 | some Dynamic.DynamicLinking => 1 | some Dynamic.ShareGenerics => 2),
    (match s.hotpatching with | none => 0 | some Hotpatching.Dx => 1) ]

/-- Stand-in for `Scenario::payload_seed`, which hashes the scenario with
std's `DefaultHasher` (SipHash with fixed keys: deterministic across calls
and runs, but implemented in the Rust standard library, outside this
repository's sources). Modelled from the spec: a stable 64-bit hash over all
four fields; any deterministic mixing function qualifies. Every theorem
below uses only that this is a pure function of the `Scenario` value (the
marker-uniqueness claim is proved for an arbitrary seed assignment). -/
def Scenario.payload_seed (s : Scenario) : Nat :=
  s.fieldCodes.foldl (fun h x => ((h ^^^ x) * 0x100000001b3) % 2 ^ 64) 0xcbf29ce484222325

/-- Lower-case hexadecimal rendering of a `u64`, zero-padded to width 16:
the `{seed:016x}` format used by `ready_marker`. -/
def hex16 (v : Nat) : String :=
  ⟨(List.range 16).map fun i => Nat.digitChar (v / 16 ^ (15 - i) % 16)⟩

/-- `fn ready_marker(slug, seed)`: fixed prefix, slug, then the seed as
fixed-width hexadecimal. -/
def ready_marker (slug : String) (seed : Nat) : String :=
  "PAYLOAD_SYSTEM_IS_READY__" ++ slug ++ "__" ++ hex16 seed

/-- `u64::rotate_left` on the `Nat` model (argument assumed `< 2 ^ 64`). -/
def rotl64 (v n : Nat) : Nat :=
  ((v <<< n) % 2 ^ 64) ||| (v >>> (64 - n))

/-- `fn payload_value(seed)`: `seed.rotate_left(17) ^ 0x9e3779b97f4a7c15`. -/
def payload_value (seed : Nat) : Nat :=
  rotl64 seed 17 ^^^ 0x9e3779b97f4a7c15

/-- `fn next_payload_value(previous)`: XOR with the mix constant, falling
back to a wrapping add of a small odd constant on a fixed point. -/
def next_payload_value (previous : Nat) : Nat :=
  let candidate := previous ^^^ 0xa0761d6478bd642f
  if candidate ≠ previous then candidate else (previous + 0x9e37) % 2 ^ 64

/-- `fn build_payload_main(ready_marker, payload_value)`: the generated
source file, embedding the marker as a string constant and the payload as a
numeric constant (`\x7b` / `\x7d` denote the literal braces of the Rust
template). -/
def build_payload_main (ready_marker : String) (payload_value : Nat) : String :=
  "use bevy::prelude::*;\n\nconst READY_MARKER: &str = \"" ++ ready_marker ++
  ("\";\nconst PAYLOAD_RANDOM_VALUE: u64 = " ++ toString payload_value ++
  ";\n\nfn main() \x7b\n    App::new()\n        .add_plugins(DefaultPlugins)\n        .add_systems(Startup, announce_ready)\n        .add_systems(Update, heartbeat)\n        .run();\n\x7d\n\nfn announce_ready() \x7b\n    println!(\"\x7b\x7d\", READY_MARKER);\n    println!(\"PAYLOAD_RANDOM_VALUE=\x7b\x7d\", PAYLOAD_RANDOM_VALUE);\n\x7d\n\nfn heartbeat(mut ticks: Local<u32>) \x7b\n    *ticks += 1;\n    if *ticks % 600 == 0 \x7b\n        println!(\"PAYLOAD_HEARTBEAT::\x7b\x7d::\x7b\x7d\", READY_MARKER, *ticks);\n    \x7d\n\x7d\n")

/-- `fn build_cargo_config(scenario, slug)`: `[build]` header with the
slug-keyed target directory, then a conditional `[env]` section (cache
override first, then the share-generics flag), then a conditional linker
section. -/
def build_cargo_config (scenario : Scenario) (slug : String) : String :=
  let output := "[build]\n" ++ ("target-dir = \"target/" ++ slug ++ "\"\n")
  let env_lines : List (String × String) :=
    (match scenario.cache with
     | some Cache.DisableIncremental => [("CARGO_INCREMENTAL", "0")]
     | some Cache.Sscache => [("RUSTC_WRAPPER", "sccache")]
     | none => []) ++
    (if scenario.dynamic = some Dynamic.ShareGenerics then
      [("RUSTFLAGS", "-Zshare-generics=y")]
     else [])
  let output :=
    if env_lines.isEmpty then output
    else env_lines.foldl
      (fun acc kv => acc ++ (kv.1 ++ " = \"" ++ kv.2 ++ "\"\n"))
      (output ++ "\n[env]\n")
  if scenario.linker = some Linker.RustLld then
    output ++ "\n[target.\x27cfg(all())\x27]\n" ++ "linker = \"rust-lld.exe\"\n"
  else output

/-- `fn build_cargo_toml(scenario, slug)`: manifest keyed by slug with the
conditional bevy feature flags. -/
def build_cargo_toml (scenario : Scenario) (slug : String) : String :=
  let bevy_features : List String :=
    (if scenario.dynamic = some Dynamic.DynamicLinking then ["dynamic_linking"] else []) ++
    (if scenario.hotpatching = some Hotpatching.Dx then ["hotpatching"] else [])
  let features_clause :=
    if bevy_features.isEmpty then ""
    else ", features = [" ++
      String.intercalate ", " (bevy_features.map fun feat => "\"" ++ feat ++ "\"") ++ "]"
  "[package]\nname = \"bench-payload-" ++ slug ++
  "\"\nversion = \"0.1.0\"\nedition = \"2024\"\n\n[dependencies]\nbevy = \x7b version = \"0.17.2\"" ++
  features_clause ++ " \x7d\n\n[profile.dev]\nopt-level = 1\n\n[profile.dev.package.\"*\"]\nopt-level = 3\n"

/-- `fn default_toolchain()`: constant toolchain pin. -/
def default_toolchain : String :=
  "[toolchain]\nchannel = \"nightly\"\ncomponents = [\"llvm-tools-preview\"]\nprofile = \"default\"\n"

/-- `Code::for_scenario`. -/
def Code.for_scenario (scenario : Scenario) (slug ready_marker : String)
    (payload_value : Nat) : Code :=
  { cargo_config_toml := build_cargo_config scenario slug
    src_main_rs := build_payload_main ready_marker payload_value
    cargo_toml := build_cargo_toml scenario slug
    rust_toolchain_toml := default_toolchain }

/-- `struct PreparedScenario`: a scenario plus everything derived from it. -/
structure PreparedScenario where
  scenario : Scenario
  slug : String
  ready_marker : String
  payload_value : Nat
  code : Code
deriving DecidableEq

/-- `PreparedScenario::new`. -/
def PreparedScenario.new (scenario : Scenario) : PreparedScenario :=
  let slug := scenario.slug
  let seed := scenario.payload_seed
  let marker := Bench.ready_marker slug seed
  let value := Bench.payload_value seed
  { scenario := scenario
    slug := slug
    ready_marker := marker
    payload_value := value
    code := Code.for_scenario scenario slug marker value }

/-- `fn enumerate_scenarios()`: triple nested loop over the linker, cache
and dynamic dimensions, pushing each base combination once without
hot-patching and once with `Hotpatching::Dx`. -/
def enumerate_scenarios : List Scenario :=
  let linkers : List (Option Linker) := [none, some Linker.RustLld]
  let caches : List (Option Cache) :=
    [none, some Cache.DisableIncremental, some Cache.Sscache]
  let dynamics : List (Option Dynamic) :=
    [none, some Dynamic.DynamicLinking, some Dynamic.ShareGenerics]
  linkers.flatMap fun linker =>
    caches.flatMap fun cache =>
      dynamics.flatMap fun dynamic =>
        [ { linker := linker, cache := cache, dynamic := dynamic, hotpatching := none },
          { linker := linker, cache := cache, dynamic := dynamic,
            hotpatching := some Hotpatching.Dx } ]

/-- `fn prepare_scenarios()`. -/
def prepare_scenarios : List PreparedScenario :=
  enumerate_scenarios.map PreparedScenario.new

/-- Substring test on character lists: `needle` occurs contiguously in the
haystack (the semantics of Rust's `str::contains` with a string pattern). -/
def listIsInfixOf (needle : List Char) : List Char → Bool
  | [] => needle.isEmpty
  | c :: rest => needle.isPrefixOf (c :: rest) || listIsInfixOf needle rest

/-- `hay.contains(needle)` for strings. -/
def strContains (hay needle : String) : Bool :=
  listIsInfixOf needle.data hay.data

/-- Tag of one of the child's two output streams (`enum StreamKind`). -/
inductive StreamKind
  | Stdout
  | Stderr
deriving DecidableEq

/-- The four files materialized into the workspace by
`write_workspace_files`, as pure contents (the filesystem footprint of one
scenario's workspace). -/
structure WorkspaceFiles where
  cargo_toml : String
  src_main_rs : String
  cargo_config_toml : String
  rust_toolchain_toml : String
deriving DecidableEq

/-- `write_workspace_files(root, code)`: the workspace holds the four
artifact contents verbatim. -/
def write_workspace_files (code : Code) : WorkspaceFiles :=
  { cargo_toml := code.cargo_toml
    src_main_rs := code.src_main_rs
    cargo_config_toml := code.cargo_config_toml
    rust_toolchain_toml := code.rust_toolchain_toml }

/-- `fn mutate_payload_constant(workspace, prepared)`: compute the next
payload value, regenerate the source with the same ready marker and the new
value, overwrite `src/main.rs` only, and return the new value together with
the expected confirmation line. -/
def mutate_payload_constant (workspace : WorkspaceFiles) (prepared : PreparedScenario) :
    WorkspaceFiles × Nat × String :=
  let new_value := next_payload_value prepared.payload_value
  let new_source := build_payload_main prepared.ready_marker new_value
  ({ workspace with src_main_rs := new_source },
   new_value,
   "PAYLOAD_RANDOM_VALUE=" ++ toString new_value)

/-- One outcome of `rx.recv_timeout` in the monitor's control loop. -/
inductive RecvOutcome
  | line (kind : StreamKind) (text : String)
  | closed (kind : StreamKind)
  | timeout
  | disconnected
deriving DecidableEq

/-- One iteration's worth of external observations for the control loop: the
channel outcome, the current clock (milliseconds since session start), the
result a `child.try_wait()` poll would return at this instant (`some status`
iff the child has exited), and the status a blocking `child.wait()` would
return. -/
structure MonitorStep where
  event : RecvOutcome
  now : Nat
  exitStatus : Option Int
  waitStatus : Int
deriving DecidableEq

/-- The mutable state of `run_dx_hotpatch`'s loop: the `ready_seen`,
`expected_payload_line` and `hotpatch_started` variables, plus the workspace
files (mutated once when the ready marker is observed). -/
structure LoopState where
  readySeen : Bool
  expectedPayloadLine : Option String
  hotpatchStarted : Option Nat
  workspace : WorkspaceFiles
deriving DecidableEq

/-- State of the loop on entry to `run_dx_hotpatch`'s `loop`. -/
def initialLoopState (workspace : WorkspaceFiles) : LoopState :=
  { readySeen := false
    expectedPayloadLine := none
    hotpatchStarted := none
    workspace := workspace }

/-- `ready_deadline = Instant::now() + Duration::from_secs(180)`, in
milliseconds from session start. -/
def readyDeadlineMs : Nat := 180000

/-- How one control-loop iteration of `run_dx_hotpatch` ends. -/
inductive MonitorOutcome
  | hotpatchLatency (elapsed : Nat)
  | exitedEarly (kind : StreamKind) (status : Int)
  | readyTimeout
  | channelClosed (status : Int)
  | stillRunning
deriving DecidableEq

/-- One iteration of `run_dx_hotpatch`'s control loop: either the loop
continues with an updated state (`Sum.inl`) or the function returns /
bails (`Sum.inr`). Mirrors the `match rx.recv_timeout(...)` body. -/
def monitorLoopStep (prepared : PreparedScenario) (st : LoopState) (s : MonitorStep) :
    LoopState ⊕ MonitorOutcome :=
  match s.event with
  | RecvOutcome.line _kind text =>
      if !st.readySeen && strContains text prepared.ready_marker then
        let mutated := mutate_payload_constant st.workspace prepared
        Sum.inl { readySeen := true
                  expectedPayloadLine := some mutated.2.2
                  hotpatchStarted := some s.now
                  workspace := mutated.1 }
      else
        match st.expectedPayloadLine, st.hotpatchStarted with
        | some expected, some started =>
            if strContains text expected then
              Sum.inr (MonitorOutcome.hotpatchLatency (s.now - started))
            else Sum.inl st
        | _, _ => Sum.inl st
  | RecvOutcome.closed kind =>
      match s.exitStatus with
      | some status => Sum.inr (MonitorOutcome.exitedEarly kind status)
      | none => Sum.inl st
  | RecvOutcome.timeout =>
      if !st.readySeen && decide (s.now > readyDeadlineMs) then
        Sum.inr MonitorOutcome.readyTimeout
      else Sum.inl st
  | RecvOutcome.disconnected =>
      Sum.inr (MonitorOutcome.channelClosed s.waitStatus)

/-- Run the monitor's control loop over a finite sequence of observations;
`stillRunning` records that the loop had not returned by the end of the
sequence (the loop itself has no other way to stop). -/
def runMonitorLoop (prepared : PreparedScenario) (st : LoopState) :
    List MonitorStep → MonitorOutcome
  | [] => MonitorOutcome.stillRunning
  | s :: rest =>
      match monitorLoopStep prepared st s with
      | Sum.inl st2 => runMonitorLoop prepared st2 rest
      | Sum.inr out => out

/-- Outcome of one `cargo build` invocation (`run_cargo_build`'s external
effect): it ran and succeeded after `elapsed` ms, ran and returned a
non-zero status, or could not be spawned. -/
inductive BuildOutcome
  | success (elapsed : Nat)
  | nonZero (status : Int)
  | spawnError
deriving DecidableEq

/-- The fatal errors `run_scenario` can propagate. -/
inductive BenchError
  | workspaceFailed
  | buildSpawnFailed (label : String)
  | buildFailed (label : String) (status : Int)
  | hotpatchFailed
deriving DecidableEq

/-- Externally observable phases run by `run_scenario`, in order. -/
inductive PhaseAction
  | build (label : String)
  | hotpatch
deriving DecidableEq

/-- The external world one scenario runs against: whether workspace
provisioning succeeds, the outcome of each labelled `cargo build`, and the
hot-patch session's outcome (`some latency` on success, `none` when the
session fails fatally). -/
structure ScenarioEnv where
  workspaceOk : Bool
  buildOutcome : String → BuildOutcome
  hotpatchOutcome : Option Nat

/-- `struct ScenarioTimings` (durations in ms). -/
structure ScenarioTimings where
  first : Option Nat
  second : Option Nat
  hotpatch : Option Nat
deriving DecidableEq

/-- `struct ScenarioResult`. -/
structure ScenarioResult where
  slug : String
  timings : ScenarioTimings
deriving DecidableEq

/-- `fn run_cargo_build(workspace, label)`. -/
def run_cargo_build (env : ScenarioEnv) (label : String) : Except BenchError Nat :=
  match env.buildOutcome label with
  | BuildOutcome.success elapsed => Except.ok elapsed
  | BuildOutcome.nonZero status => Except.error (BenchError.buildFailed label status)
  | BuildOutcome.spawnError => Except.error (BenchError.buildSpawnFailed label)

/-- `fn run_scenario(prepared)`: provision the workspace, run the clean and
second builds, then the hot-patch session iff the scenario requests it.
Returns the result (or the first fatal error) together with the list of
phases that were actually started. -/
def run_scenario (env : ScenarioEnv) (prepared : PreparedScenario) :
    Except BenchError ScenarioResult × List PhaseAction :=
  if env.workspaceOk then
    match run_cargo_build env "clean" with
    | Except.error e => (Except.error e, [PhaseAction.build "clean"])
    | Except.ok first =>
        match run_cargo_build env "second" with
        | Except.error e =>
            (Except.error e, [PhaseAction.build "clean", PhaseAction.build "second"])
        | Except.ok second =>
            if prepared.scenario.hotpatching.isSome then
              match env.hotpatchOutcome with
              | some latency =>
                  (Except.ok { slug := prepared.slug
                               timings := { first := some first, second := some second,
                                            hotpatch := some latency } },
                   [PhaseAction.build "clean", PhaseAction.build "second",
                    PhaseAction.hotpatch])
              | none =>
                  (Except.error BenchError.hotpatchFailed,
                   [PhaseAction.build "clean", PhaseAction.build "second",
                    PhaseAction.hotpatch])
            else
              (Except.ok { slug := prepared.slug
                           timings := { first := some first, second := some second,
                                        hotpatch := none } },
               [PhaseAction.build "clean", PhaseAction.build "second"])
  else (Except.error BenchError.workspaceFailed, [])

instance : Fintype Linker :=
  ⟨{Linker.RustLld}, fun x => by cases x; exact Finset.mem_singleton_self _⟩

instance : Fintype Cache :=
  ⟨{Cache.DisableIncremental, Cache.Sscache}, fun x => by cases x <;> simp⟩

instance : Fintype Dynamic :=
  ⟨{Dynamic.DynamicLinking, Dynamic.ShareGenerics}, fun x => by cases x <;> simp⟩

instance : Fintype Hotpatching :=
  ⟨{Hotpatching.Dx}, fun x => by cases x; exact Finset.mem_singleton_self _⟩

/-- A `Scenario` is exactly a 4-tuple of its optional fields. -/
def scenarioEquivTuple :
    Scenario ≃ Option Linker × Option Cache × Option Dynamic × Option Hotpatching where
  toFun s := (s.linker, s.cache, s.dynamic, s.hotpatching)
  invFun p := { linker := p.1, cache := p.2.1, dynamic := p.2.2.1, hotpatching := p.2.2.2 }
  left_inv := fun _ => rfl
  right_inv := fun _ => rfl

instance : Fintype Scenario := Fintype.ofEquiv _ scenarioEquivTuple.symm

/-- Every possible configuration tuple occurs in the enumerated matrix. -/
theorem scenario_complete : ∀ s : Scenario, s ∈ enumerate_scenarios := by decide

/-- The 36 slugs of the enumerated matrix are pairwise distinct. -/
theorem slug_map_nodup : (enumerate_scenarios.map Scenario.slug).Nodup := by decide

/-- `hex16` always renders exactly 16 characters. -/
theorem hex16_data_length (v : Nat) : (hex16 v).data.length = 16 := by
  simp [hex16]

/-- Equal ready markers force equal slugs: the seed suffix has fixed width,
so the slug segment in the middle is recoverable. -/
theorem ready_marker_slug_inj {a b : String} {x y : Nat}
    (h : ready_marker a x = ready_marker b y) : a = b := by
  have hd : ("PAYLOAD_SYSTEM_IS_READY__".data ++ a.data ++ "__".data) ++ (hex16 x).data =
      ("PAYLOAD_SYSTEM_IS_READY__".data ++ b.data ++ "__".data) ++ (hex16 y).data := by
    have := congrArg String.data h
    simpa [ready_marker, String.data_append, List.append_assoc] using this
  have hlen : (hex16 x).data.length = (hex16 y).data.length := by
    rw [hex16_data_length, hex16_data_length]
  have hmid := (List.append_inj' hd hlen).1
  have hmid2 : "PAYLOAD_SYSTEM_IS_READY__".data ++ (a.data ++ "__".data) =
      "PAYLOAD_SYSTEM_IS_READY__".data ++ (b.data ++ "__".data) := by
    simpa [List.append_assoc] using hmid
  have hdata := List.append_cancel_right (List.append_cancel_left hmid2)
  exact congrArg String.mk hdata

/-- Distinct scenarios of the matrix have distinct slugs. -/
theorem slug_inj_on_matrix {s1 s2 : Scenario}
    (h1 : s1 ∈ enumerate_scenarios) (h2 : s2 ∈ enumerate_scenarios)
    (h : Scenario.slug s1 = Scenario.slug s2) : s1 = s2 :=
  List.inj_on_of_nodup_map slug_map_nodup h1 h2 h

/-- XOR with the (non-zero) mix constant never fixes a value. -/
theorem xor_mix_ne (v : Nat) : v ^^^ 0xa0761d6478bd642f ≠ v := by
  intro heq
  have h0 : (0xa0761d6478bd642f : Nat) = 0 := by
    calc (0xa0761d6478bd642f : Nat) = (v ^^^ 0xa0761d6478bd642f) ^^^ v := by
          rw [Nat.xor_comm v, Nat.xor_cancel_right]
      _ = v ^^^ v := by rw [heq]
      _ = 0 := Nat.xor_self v
  exact absurd h0 (by decide)

/-- The wrapping-add fallback branch of `next_payload_value` is unreachable:
the function always returns the XOR candidate. -/
theorem next_payload_value_eq_xor (v : Nat) :
    next_payload_value v = v ^^^ 0xa0761d6478bd642f := by
  have h := xor_mix_ne v
  simp [next_payload_value, h]

/-- A string placed between two others occurs in the concatenation. -/
theorem data_infix_of_mid (A m R : String) : m.data <:+: (A ++ m ++ R).data :=
  ⟨A.data, R.data, by simp [String.data_append]⟩

/-- Claim C2: for every 64-bit value `v`, `next_payload_value v ≠ v`; and
the wrapping-add fallback value `(v + 0x9e37) mod 2^64` (taken on a
hypothetical XOR fixed point) also differs from `v`. -/
theorem next_payload_value_ne_self :
    ∀ v : Nat, next_payload_value v ≠ v ∧ (v < 2 ^ 64 → (v + 0x9e37) % 2 ^ 64 ≠ v) := by
  intro v
  refine ⟨?_, ?_⟩
  · rw [next_payload_value_eq_xor]
    exact xor_mix_ne v
  · intro hlt heq
    omega

/-- Witness for C2 at `v = 5`. -/
theorem next_payload_value_ne_self_witness :
    next_payload_value 5 ≠ 5 ∧ (5 + 0x9e37) % 2 ^ 64 ≠ 5 :=
  ⟨(next_payload_value_ne_self 5).1, (next_payload_value_ne_self 5).2 (by norm_num)⟩

/-- Claim C10: `next_payload_value` is an involution on every `v` whose
XOR-with-constant result differs from `v` (which is every `v`). -/
theorem next_payload_value_involution (v : Nat)
    (_h : v ^^^ 0xa0761d6478bd642f ≠ v) :
    next_payload_value (next_payload_value v) = v := by
  rw [next_payload_value_eq_xor, next_payload_value_eq_xor, Nat.xor_cancel_right]

/-- Witness for C10 at `v = 0`. -/
theorem next_payload_value_involution_witness :
    (0 : Nat) ^^^ 0xa0761d6478bd642f ≠ 0 ∧
      next_payload_value (next_payload_value 0) = 0 :=
  ⟨by decide, next_payload_value_involution 0 (by decide)⟩

/-- Claim C4: the scenario matrix has exactly 36 entries, no duplicates,
contains every configuration tuple, and contains each linker × cache ×
dynamic combination exactly twice: once with hot-patching unset and once
with `Hotpatching::Dx`. -/
theorem enumerate_scenarios_matrix :
    enumerate_scenarios.length = 36 ∧ enumerate_scenarios.Nodup ∧
    (∀ s : Scenario, s ∈ enumerate_scenarios) ∧
    ∀ (l : Option Linker) (c : Option Cache) (d : Option Dynamic),
      Scenario.mk l c d none ∈ enumerate_scenarios ∧
      Scenario.mk l c d (some Hotpatching.Dx) ∈ enumerate_scenarios :=
  ⟨by decide, by decide, scenario_complete,
   fun l c d => ⟨scenario_complete _, scenario_complete _⟩⟩

/-- Claim C8: `slug`, the seed, and everything derived from them
(`PreparedScenario::new`, hence the ready marker, payload value and code
bundle) are pure functions of the configuration tuple: equal tuples derive
identical values. -/
theorem slug_seed_deterministic (s t : Scenario) (h : s = t) :
    Scenario.slug s = Scenario.slug t ∧
    Scenario.payload_seed s = Scenario.payload_seed t ∧
    PreparedScenario.new s = PreparedScenario.new t := by
  subst h
  exact ⟨rfl, rfl, rfl⟩

/-- Witness for C8 at a concrete scenario. -/
theorem slug_seed_deterministic_witness :
    Scenario.slug ⟨some Linker.RustLld, none, none, some Hotpatching.Dx⟩ =
      Scenario.slug ⟨some Linker.RustLld, none, none, some Hotpatching.Dx⟩ ∧
    Scenario.payload_seed ⟨some Linker.RustLld, none, none, some Hotpatching.Dx⟩ =
      Scenario.payload_seed ⟨some Linker.RustLld, none, none, some Hotpatching.Dx⟩ ∧
    PreparedScenario.new ⟨some Linker.RustLld, none, none, some Hotpatching.Dx⟩ =
      PreparedScenario.new ⟨some Linker.RustLld, none, none, some Hotpatching.Dx⟩ :=
  slug_seed_deterministic _ _ rfl

/-- Claim C3: the ready markers of two distinct scenarios of the matrix are
distinct strings, whatever 64-bit seed each scenario is assigned (the slug
segment sits between a fixed prefix and a fixed-width hexadecimal suffix, so
marker equality forces slug equality, and the 36 slugs are pairwise
distinct). -/
theorem ready_marker_injective_on_matrix (seedFn : Scenario → Nat)
    (s1 s2 : Scenario)
    (h1 : s1 ∈ enumerate_scenarios) (h2 : s2 ∈ enumerate_scenarios)
    (hne : s1 ≠ s2) :
    ready_marker (Scenario.slug s1) (seedFn s1) ≠
      ready_marker (Scenario.slug s2) (seedFn s2) :=
  fun heq => hne (slug_inj_on_matrix h1 h2 (ready_marker_slug_inj heq))

/-- Witness for C3 on two concrete scenarios. -/
theorem ready_marker_injective_on_matrix_witness :
    ready_marker (Scenario.slug ⟨none, none, none, none⟩) 0 ≠
      ready_marker (Scenario.slug ⟨none, none, none, some Hotpatching.Dx⟩) 0 :=
  ready_marker_injective_on_matrix (fun _ => 0) _ _ (by decide) (by decide) (by decide)

/-- Claim C7: `mutate_payload_constant` rewrites only the generated source
file: the manifest, build-config and toolchain-pin contents are unchanged,
the new source is the regeneration with the same ready marker and the new
payload constant `next_payload_value(payload_value)` (which is also the
value it reports), and the ready marker occurs verbatim in the new source. -/
theorem mutate_payload_constant_frame (workspace : WorkspaceFiles)
    (prepared : PreparedScenario) :
    (mutate_payload_constant workspace prepared).1.cargo_toml = workspace.cargo_toml ∧
    (mutate_payload_constant workspace prepared).1.cargo_config_toml =
      workspace.cargo_config_toml ∧
    (mutate_payload_constant workspace prepared).1.rust_toolchain_toml =
      workspace.rust_toolchain_toml ∧
    (mutate_payload_constant workspace prepared).1.src_main_rs =
      build_payload_main prepared.ready_marker
        (next_payload_value prepared.payload_value) ∧
    prepared.ready_marker.data <:+:
      (mutate_payload_constant workspace prepared).1.src_main_rs.data ∧
    (mutate_payload_constant workspace prepared).2.1 =
      next_payload_value prepared.payload_value :=
  ⟨rfl, rfl, rfl, rfl, data_infix_of_mid _ _ _, rfl⟩

/-- Claim C9: in the generated build-config text, each environment override
occurs exactly when the corresponding dimension selects it, and the
slug-keyed isolated target directory is always present. -/
theorem build_cargo_config_overrides (s : Scenario) :
    (strContains (build_cargo_config s s.slug) "CARGO_INCREMENTAL = \"0\"" = true ↔
      s.cache = some Cache.DisableIncremental) ∧
    (strContains (build_cargo_config s s.slug) "RUSTC_WRAPPER = \"sccache\"" = true ↔
      s.cache = some Cache.Sscache) ∧
    (strContains (build_cargo_config s s.slug) "RUSTFLAGS = \"-Zshare-generics=y\"" = true ↔
      s.dynamic = some Dynamic.ShareGenerics) ∧
    (strContains (build_cargo_config s s.slug) "linker = \"rust-lld.exe\"" = true ↔
      s.linker = some Linker.RustLld) ∧
    strContains (build_cargo_config s s.slug)
      ("target-dir = \"target/" ++ s.slug ++ "\"") = true := by
  revert s
  decide

/-- Claim C5: a failing (or unspawnable) clean build makes `run_scenario`
return the corresponding build error after running only the clean build
phase — the hot-patch session is never started — and any successful
`run_scenario` result carries both build timings and a hot-patch timing
exactly when the scenario requested hot-patching. -/
theorem run_scenario_build_failure :
    (∀ (env : ScenarioEnv) (prepared : PreparedScenario) (status : Int),
      env.workspaceOk = true →
      env.buildOutcome "clean" = BuildOutcome.nonZero status →
      run_scenario env prepared =
        (Except.error (BenchError.buildFailed "clean" status),
         [PhaseAction.build "clean"])) ∧
    (∀ (env : ScenarioEnv) (prepared : PreparedScenario),
      env.workspaceOk = true →
      env.buildOutcome "clean" = BuildOutcome.spawnError →
      run_scenario env prepared =
        (Except.error (BenchError.buildSpawnFailed "clean"),
         [PhaseAction.build "clean"])) ∧
    (∀ (env : ScenarioEnv) (prepared : PreparedScenario) (r : ScenarioResult),
      (run_scenario env prepared).1 = Except.ok r →
      r.timings.first.isSome ∧ r.timings.second.isSome ∧
        (r.timings.hotpatch.isSome ↔ prepared.scenario.hotpatching.isSome)) := by
  refine ⟨?_, ?_, ?_⟩
  · intro env prepared status hws hb
    simp [run_scenario, run_cargo_build, hws, hb]
  · intro env prepared hws hb
    simp [run_scenario, run_cargo_build, hws, hb]
  · intro env prepared r h
    rw [run_scenario] at h
    split at h
    · split at h
      · simp at h
      · split at h
        · simp at h
        · split at h
          · split at h
            · simp only [Except.ok.injEq] at h
              subst h
              simp_all
            · simp at h
          · simp only [Except.ok.injEq] at h
            subst h
            simp_all
    · simp at h

/-- Witness for C5: a clean build exiting with status 101 aborts the
scenario after the clean phase, and an all-success environment on a
hot-patch scenario yields a result with all three timings. -/
theorem run_scenario_build_failure_witness :
    run_scenario
      { workspaceOk := true
        buildOutcome := fun _ => BuildOutcome.nonZero 101
        hotpatchOutcome := none }
      (PreparedScenario.new ⟨none, none, none, some Hotpatching.Dx⟩) =
      (Except.error (BenchError.buildFailed "clean" 101), [PhaseAction.build "clean"]) ∧
    (({ slug := "default-linker-incremental-default-dynamic-dx-hotpatch"
        timings := { first := some 7, second := some 7, hotpatch := some 3 } } :
          ScenarioResult).timings.first.isSome ∧
     ({ slug := "default-linker-incremental-default-dynamic-dx-hotpatch"
        timings := { first := some 7, second := some 7, hotpatch := some 3 } } :
          ScenarioResult).timings.second.isSome ∧
     (({ slug := "default-linker-incremental-default-dynamic-dx-hotpatch"
         timings := { first := some 7, second := some 7, hotpatch := some 3 } } :
           ScenarioResult).timings.hotpatch.isSome ↔
       (⟨none, none, none, some Hotpatching.Dx⟩ : Scenario).hotpatching.isSome)) :=
  ⟨run_scenario_build_failure.1 _ _ 101 rfl rfl,
   run_scenario_build_failure.2.2
     { workspaceOk := true
       buildOutcome := fun _ => BuildOutcome.success 7
       hotpatchOutcome := some 3 }
     (PreparedScenario.new ⟨none, none, none, some Hotpatching.Dx⟩)
     { slug := "default-linker-incremental-default-dynamic-dx-hotpatch"
       timings := { first := some 7, second := some 7, hotpatch := some 3 } }
     (by rfl)⟩

/-- Claim C6: if, before the ready marker is ever observed (any prefix of
line events without the marker and of stream-close events while the child is
still running), a `Closed` event arrives when the child has already exited
with some status, the monitor fails immediately with the early-exit error
carrying that real status — it neither hangs nor reports success. -/
theorem monitor_exited_early (prepared : PreparedScenario) (ws : WorkspaceFiles)
    (steps0 : List MonitorStep) (k : StreamKind) (t : Nat) (status : Int)
    (w : Int) (rest : List MonitorStep)
    (hpre : ∀ s ∈ steps0,
      (∃ kind text, s.event = RecvOutcome.line kind text ∧
        strContains text prepared.ready_marker = false) ∨
      (∃ kind, s.event = RecvOutcome.closed kind ∧ s.exitStatus = none)) :
    runMonitorLoop prepared (initialLoopState ws)
      (steps0 ++
        { event := RecvOutcome.closed k, now := t, exitStatus := some status,
          waitStatus := w } :: rest) =
      MonitorOutcome.exitedEarly k status := by
  induction steps0 with
  | nil => rfl
  | cons s ss ih =>
      rcases hpre s (List.mem_cons_self s ss) with ⟨kind, text, hev, hc⟩ | ⟨kind, hev, hex⟩
      · have hstep : monitorLoopStep prepared (initialLoopState ws) s =
            Sum.inl (initialLoopState ws) := by
          simp [monitorLoopStep, hev, hc, initialLoopState]
        rw [List.cons_append, runMonitorLoop, hstep]
        exact ih fun x hx => hpre x (List.mem_cons_of_mem s hx)
      · have hstep : monitorLoopStep prepared (initialLoopState ws) s =
            Sum.inl (initialLoopState ws) := by
          simp [monitorLoopStep, hev, hex]
        rw [List.cons_append, runMonitorLoop, hstep]
        exact ih fun x hx => hpre x (List.mem_cons_of_mem s hx)

/-- Witness for C6: the child closes stdout and has exited with status 1
before any line was seen; the monitor reports the early exit with status 1. -/
theorem monitor_exited_early_witness :
    runMonitorLoop (PreparedScenario.new ⟨none, none, none, some Hotpatching.Dx⟩)
      (initialLoopState
        (write_workspace_files
          (PreparedScenario.new ⟨none, none, none, some Hotpatching.Dx⟩).code))
      [{ event := RecvOutcome.closed StreamKind.Stdout, now := 5,
         exitStatus := some 1, waitStatus := 1 }] =
      MonitorOutcome.exitedEarly StreamKind.Stdout 1 :=
  monitor_exited_early _ _ [] StreamKind.Stdout 5 1 1 [] (by simp)

/-- Claim C1 (violated by the code): once the ready marker has been seen
(`ready_seen = true`, the WAIT_PATCH phase), the control loop's deadline
branch is dead — every poll timeout leaves the loop running, whatever the
clock says, so a confirmation string that never arrives makes the loop spin
past the session deadline instead of terminating the child and failing. -/
theorem wait_patch_ignores_deadline (prepared : PreparedScenario)
    (st : LoopState) (steps : List MonitorStep)
    (hready : st.readySeen = true)
    (hsteps : ∀ s ∈ steps, s.event = RecvOutcome.timeout) :
    runMonitorLoop prepared st steps = MonitorOutcome.stillRunning := by
  induction steps with
  | nil => rfl
  | cons s ss ih =>
      have hstep : monitorLoopStep prepared st s = Sum.inl st := by
        simp [monitorLoopStep, hsteps s (List.mem_cons_self s ss), hready]
      rw [runMonitorLoop, hstep]
      exact ih fun x hx => hsteps x (List.mem_cons_of_mem s hx)

/-- Witness for C1's violation: with the ready marker already observed, a
poll timeout arriving a full hour past the 180 s deadline still leaves the
loop running. -/
theorem wait_patch_ignores_deadline_witness :
    runMonitorLoop (PreparedScenario.new ⟨none, none, none, some Hotpatching.Dx⟩)
      { readySeen := true
        expectedPayloadLine := some "PAYLOAD_RANDOM_VALUE=0"
        hotpatchStarted := some 1000
        workspace := write_workspace_files
          (PreparedScenario.new ⟨none, none, none, some Hotpatching.Dx⟩).code }
      [{ event := RecvOutcome.timeout, now := 3780000, exitStatus := none,
         waitStatus := 0 }] =
      MonitorOutcome.stillRunning :=
  wait_patch_ignores_deadline _ _ _ rfl (by simp)

/-- In the WAIT_READY phase, by contrast, the deadline branch is live: in
the pre-ready state a poll timeout strictly past the 180 s deadline makes
the loop terminate with the ready-timeout failure. -/
theorem wait_ready_deadline_fires (prepared : PreparedScenario)
    (ws : WorkspaceFiles) (s : MonitorStep) (rest : List MonitorStep)
    (hev : s.event = RecvOutcome.timeout) (hlate : s.now > readyDeadlineMs) :
    runMonitorLoop prepared (initialLoopState ws) (s :: rest) =
      MonitorOutcome.readyTimeout := by
  have hstep : monitorLoopStep prepared (initialLoopState ws) s =
      Sum.inr MonitorOutcome.readyTimeout := by
    simp [monitorLoopStep, hev, initialLoopState, hlate]
  rw [runMonitorLoop, hstep]

/-- Witness for the WAIT_READY deadline behaviour. -/
theorem wait_ready_deadline_fires_witness :
    runMonitorLoop (PreparedScenario.new ⟨none, none, none, some Hotpatching.Dx⟩)
      (initialLoopState
        (write_workspace_files
          (PreparedScenario.new ⟨none, none, none, some Hotpatching.Dx⟩).code))
      [{ event := RecvOutcome.timeout, now := 180001, exitStatus := none,
         waitStatus := 0 }] =
      MonitorOutcome.readyTimeout :=
  wait_ready_deadline_fires _ _ _ [] rfl (by norm_num [readyDeadlineMs])

end Bench
